import Mathlib

/-
Shallow embedding of the pipe-network browser-extension background agent
(src/background.js and src/utils.js).  Promises are modelled by explicit
outcome values, the network by an oracle mapping attempt indices to fetch
outcomes, and side effects (underlying fetch calls, setTimeout waits) by an
event trace.
-/

namespace PipeNetwork

/-- A JavaScript value, restricted to the shapes that JSON parsing and the
scripts in this repository produce. -/
inductive JsValue where
  | null
  | undefined
  | bool (b : Bool)
  | num (n : Int)
  | str (s : String)
  | obj (fields : List (String × JsValue))
deriving Repr

/-- JavaScript truthiness, as used by `if (!baseUrl)` and
`data && data.baseUrl` in background.js. -/
def JsValue.truthy : JsValue → Bool
  | .null => false
  | .undefined => false
  | .bool b => b
  | .num n => n != 0
  | .str s => s != ""
  | .obj _ => true

/-- Property access `v.k` on a value that is not null or undefined: a missing
key on an object, or a key on a primitive, yields undefined. -/
def JsValue.getField : JsValue → String → JsValue
  | .obj fields, k => (fields.lookup k).getD JsValue.undefined
  | _, _ => JsValue.undefined

/-- Property access `v.k` including the TypeError raised when v is null or
undefined, as in the unguarded `data.baseUrl` of utils.js. -/
def JsValue.getFieldE : JsValue → String → Except String JsValue
  | .null, _ => Except.error "TypeError"
  | .undefined, _ => Except.error "TypeError"
  | v, k => Except.ok (v.getField k)

/-- String interpolation of a value inside a template literal. -/
def JsValue.display : JsValue → String
  | .null => "null"
  | .undefined => "undefined"
  | .bool b => if b then "true" else "false"
  | .num n => toString n
  | .str s => s
  | .obj _ => "[object Object]"

/-- The key list produced by Object.keys, as used by checkForRewards. -/
def JsValue.objectKeys : JsValue → List String
  | .obj fields => fields.map (fun p => p.1)
  | _ => []

/-- An HTTP response: a status code and a body.  body = none models a body on
which response.json() rejects (not valid JSON). -/
structure Response where
  status : Nat
  body : Option JsValue
deriving Repr

/-- The WHATWG fetch `Response.ok` flag: status in the range 200-299. -/
def Response.ok (r : Response) : Bool :=
  decide (200 ≤ r.status) && decide (r.status < 300)

/-- Outcome of one underlying fetch call: either a settled response or a
rejected promise (network error). -/
inductive FetchResult where
  | success (r : Response)
  | netError (msg : String)

/-- Observable side effects: an underlying fetch call to a URL, or a
setTimeout wait of the given number of milliseconds. -/
inductive Event where
  | fetch (url : String)
  | wait (ms : Nat)
deriving Repr, DecidableEq

/-- Number of underlying fetch calls in a trace. -/
def countFetch (tr : List Event) : Nat :=
  tr.countP (fun e => match e with | Event.fetch _ => true | Event.wait _ => false)

/-- One loop body of fetchWithRetry (background.js lines 32-35 and utils.js
lines 16-19): perform the fetch, throw `Request failed with status N` when
response.ok is false, otherwise return the response.  The oracle gives the
outcome of the underlying fetch on attempt i. -/
def fetchAttempt (oracle : Nat → FetchResult) (i : Nat) : Except String Response :=
  match oracle i with
  | FetchResult.success r =>
      if r.ok then Except.ok r
      else Except.error ("Request failed with status " ++ toString r.status)
  | FetchResult.netError m => Except.error m

/-- The retry loop of fetchWithRetry, from the iteration with index `attempt`
on.  `fuel` is a structural bound on remaining iterations; every use supplies
fuel = retries - attempt, for which the 0-fuel case coincides with the loop
exit `attempt ≥ retries`.  On failure with `attempt < retries - 1` the code
awaits setTimeout(delay) before the next iteration; the final failure gets no
wait, and exhaustion throws `All retry attempts failed`. -/
def fetchWithRetryGo (url : String) (oracle : Nat → FetchResult) (retries delay : Nat) :
    Nat → Nat → Except String Response × List Event
  | _, 0 => (Except.error "All retry attempts failed", [])
  | attempt, fuel + 1 =>
    if attempt < retries then
      match fetchAttempt oracle attempt with
      | Except.ok r => (Except.ok r, [Event.fetch url])
      | Except.error _ =>
        let rest := fetchWithRetryGo url oracle retries delay (attempt + 1) fuel
        if attempt < retries - 1 then
          (rest.1, Event.fetch url :: Event.wait delay :: rest.2)
        else
          (rest.1, Event.fetch url :: rest.2)
    else (Except.error "All retry attempts failed", [])

/-- fetchWithRetry (background.js lines 30-44, identical in utils.js lines
14-28): run the loop from attempt 0.  In the source retries defaults to 3 and
delay to 1000. -/
def fetchWithRetry (url : String) (oracle : Nat → FetchResult) (retries delay : Nat) :
    Except String Response × List Event :=
  fetchWithRetryGo url oracle retries delay 0 retries

/-- The canonical trace of k attempts: fetches separated by single waits of
exactly `delay`, with no wait after the final fetch. -/
def retryTrace (url : String) (delay : Nat) : Nat → List Event
  | 0 => []
  | 1 => [Event.fetch url]
  | Nat.succ (Nat.succ k) =>
      Event.fetch url :: Event.wait delay :: retryTrace url delay (Nat.succ k)

theorem countFetch_nil : countFetch [] = 0 := rfl

theorem countFetch_retryTrace (url : String) (delay : Nat) :
    ∀ k, countFetch (retryTrace url delay k) = k
  | 0 => rfl
  | 1 => rfl
  | Nat.succ (Nat.succ k) => by
      have ih := countFetch_retryTrace url delay (Nat.succ k)
      simp [retryTrace, countFetch, List.countP_cons] at *
      omega

theorem wait_mem_retryTrace (url : String) (delay : Nat) :
    ∀ k m, Event.wait m ∈ retryTrace url delay k → m = delay
  | 0, m, h => by simp [retryTrace] at h
  | 1, m, h => by simp [retryTrace] at h
  | Nat.succ (Nat.succ k), m, h => by
      simp only [retryTrace, List.mem_cons] at h
      rcases h with h | h | h
      · exact absurd h (by simp)
      · exact (Event.wait.injEq m delay).mp h
      · exact wait_mem_retryTrace url delay (Nat.succ k) m h

/-- Full characterization of the retry loop from position `attempt` with
exact fuel: either some attempt k in range succeeds first and the loop
returns that response after k + 1 - attempt fetches, or every attempt in
range fails and the loop throws after exhausting the fuel. -/
theorem fetchWithRetryGo_spec (url : String) (oracle : Nat → FetchResult)
    (retries delay : Nat) :
    ∀ fuel attempt, attempt + fuel = retries →
      (∃ r k, attempt ≤ k ∧ k < retries ∧ fetchAttempt oracle k = Except.ok r ∧
        (∀ j, attempt ≤ j → j < k → ∃ e, fetchAttempt oracle j = Except.error e) ∧
        fetchWithRetryGo url oracle retries delay attempt fuel =
          (Except.ok r, retryTrace url delay (k + 1 - attempt)))
      ∨
      ((∀ j, attempt ≤ j → j < retries → ∃ e, fetchAttempt oracle j = Except.error e) ∧
        fetchWithRetryGo url oracle retries delay attempt fuel =
          (Except.error "All retry attempts failed", retryTrace url delay fuel)) := by
  intro fuel
  induction fuel with
  | zero =>
    intro attempt h
    right
    constructor
    · intro j hj1 hj2; omega
    · rfl
  | succ f ih =>
    intro attempt h
    have hlt : attempt < retries := by omega
    cases hcur : fetchAttempt oracle attempt with
    | ok r =>
      left
      refine ⟨r, attempt, le_refl _, hlt, hcur, ?_, ?_⟩
      · intro j hj1 hj2; omega
      · simp only [fetchWithRetryGo, if_pos hlt, hcur]
        have : attempt + 1 - attempt = 1 := by omega
        rw [this]
        rfl
    | error e =>
      rcases ih (attempt + 1) (by omega) with ⟨r, k, hk1, hk2, hok, hprev, heq⟩ | ⟨hall, heq⟩
      · left
        refine ⟨r, k, by omega, hk2, hok, ?_, ?_⟩
        · intro j hj1 hj2
          rcases Nat.eq_or_lt_of_le hj1 with hj | hj
          · exact ⟨e, hj ▸ hcur⟩
          · exact hprev j hj hj2
        · simp only [fetchWithRetryGo, if_pos hlt, hcur, heq]
          have hguard : attempt < retries - 1 := by omega
          rw [if_pos hguard]
          have h1 : k + 1 - (attempt + 1) = k - attempt := by omega
          have h2 : k + 1 - attempt = (k - attempt) + 1 := by omega
          rw [h1, h2]
          have hge : 1 ≤ k - attempt := by omega
          rcases Nat.exists_eq_add_of_le hge with ⟨m, hm⟩
          rw [Nat.add_comm 1 m] at hm
          rw [hm]
          rfl
      · right
        constructor
        · intro j hj1 hj2
          rcases Nat.eq_or_lt_of_le hj1 with hj | hj
          · exact ⟨e, hj ▸ hcur⟩
          · exact hall j hj hj2
        · simp only [fetchWithRetryGo, if_pos hlt, hcur, heq]
          rcases f with _ | g
          · have hguard : ¬ attempt < retries - 1 := by omega
            rw [if_neg hguard]
            rfl
          · have hguard : attempt < retries - 1 := by omega
            rw [if_pos hguard]
            rfl

/-- The configuration endpoint queried by background.js fetchBaseUrl. -/
def CONFIG_URL : String :=
  "https://pipe-network-backend.pipecanary.workers.dev/api/getBaseUrl"

/-- The fixed fallback base URL used on any resolution failure. -/
def FALLBACK_URL : String := "https://api.pipecdn.app"

/-- The value computed by fetchBaseUrl of background.js (lines 5-19) from the
result of its fetchWithRetry call: on a thrown error or a body that does not
parse, the fallback; on a parsed body, data.baseUrl when the condition
`data && data.baseUrl` is truthy, else the fallback. -/
def fetchBaseUrlValue : Except String Response → JsValue
  | Except.error _ => JsValue.str FALLBACK_URL
  | Except.ok r =>
    match r.body with
    | none => JsValue.str FALLBACK_URL
    | some data =>
      if data.truthy && (data.getField "baseUrl").truthy then data.getField "baseUrl"
      else JsValue.str FALLBACK_URL

/-- fetchBaseUrl of background.js: fetch the configuration endpoint through
fetchWithRetry (retries 3, delay 1000) and compute the returned value from
its result; the events are those of the retry loop. -/
def fetchBaseUrl (oracle : Nat → FetchResult) : JsValue × List Event :=
  let fr := fetchWithRetry CONFIG_URL oracle 3 1000
  (fetchBaseUrlValue fr.1, fr.2)

/-- The endpoint queried by utils.js fetchBaseUrl. -/
def UTILS_CONFIG_URL : String := "https://new-backend-api.com/getBaseUrl"

/-- The value returned by fetchBaseUrl of utils.js (lines 1-11) from the
outcome of its one plain fetch: a network error, a non-ok status, a body that
does not parse, or a TypeError on the unguarded access data.baseUrl all land
in the catch and give the fallback; otherwise the value of data.baseUrl is
returned as is, with no check that the field is present. -/
def utilsFetchBaseUrlValue : FetchResult → JsValue
  | FetchResult.netError _ => JsValue.str FALLBACK_URL
  | FetchResult.success r =>
    if r.ok then
      match r.body with
      | none => JsValue.str FALLBACK_URL
      | some data =>
        match data.getFieldE "baseUrl" with
        | Except.ok v => v
        | Except.error _ => JsValue.str FALLBACK_URL
    else JsValue.str FALLBACK_URL

/-- fetchBaseUrl of utils.js: one plain fetch of its endpoint (no retry). -/
def utilsFetchBaseUrl (outcome : FetchResult) : JsValue × List Event :=
  (utilsFetchBaseUrlValue outcome, [Event.fetch UTILS_CONFIG_URL])

/-- ensureBaseUrl (background.js lines 22-27): when the cached global is
falsy, resolve and store; otherwise leave it untouched and perform nothing. -/
def ensureBaseUrl (oracle : Nat → FetchResult) (baseUrl : JsValue) : JsValue × List Event :=
  if baseUrl.truthy then (baseUrl, [])
  else fetchBaseUrl oracle

/-- An operation on the cached base URL: an ensureBaseUrl call, or one firing
of the 60-minute refresh timer (background.js bottom), which unconditionally
replaces the cache with a fresh fetchBaseUrl result. -/
inductive BaseUrlOp where
  | ensure (oracle : Nat → FetchResult)
  | refresh (oracle : Nat → FetchResult)

/-- The cached base URL after one operation. -/
def baseUrlStep (op : BaseUrlOp) (b : JsValue) : JsValue :=
  match op with
  | BaseUrlOp.ensure oracle => (ensureBaseUrl oracle b).1
  | BaseUrlOp.refresh oracle => (fetchBaseUrl oracle).1

/-- The cached base URL after a sequence of operations. -/
def baseUrlRun : List BaseUrlOp → JsValue → JsValue
  | [], b => b
  | op :: ops, b => baseUrlRun ops (baseUrlStep op b)

/-- A node record from the backend node list. -/
structure Node where
  node_id : String
  ip : String
deriving Repr, DecidableEq

/-- The JSON body posted by reportTestResult (background.js lines 106-111):
status is the string online exactly when latency is strictly positive. -/
structure TestReport where
  node_id : String
  ip : String
  latency : Int
  status : String
deriving Repr, DecidableEq

/-- The body built by reportTestResult for a node and a measured latency. -/
def testReportBody (node : Node) (latency : Int) : TestReport :=
  ⟨node.node_id, node.ip, latency, if latency > 0 then "online" else "offline"⟩

/-- reportTestResult (background.js lines 91-124): read the token; with no
token, warn and return with no network call; with a token, POST the report to
the /api/test endpoint of the current base URL.  The result records the
trace of fetch calls and the posted body, when one is posted. -/
def reportTestResult (baseUrl : JsValue) (token : Option String) (node : Node)
    (latency : Int) : List Event × Option TestReport :=
  match token with
  | none => ([], none)
  | some _ =>
      ([Event.fetch (baseUrl.display ++ "/api/test")], some (testReportBody node latency))

/-- testNodeLatency (background.js lines 75-89): race one bare fetch of the
node against a 5000 ms timeout.  The probe argument describes the probe
promise: none when it never settles, some (t, true) when it fulfills t ms
after the start, some (t, false) when it rejects t ms after the start.  The
result is the returned latency, the elapsed ms at which the function
returns, and the trace of probe fetches (always exactly one). -/
def testNodeLatency (node : Node) (probe : Option (Nat × Bool)) :
    Int × Nat × List Event :=
  let timeout := 5000
  let tr := [Event.fetch ("http://" ++ node.ip)]
  match probe with
  | none => (-1, timeout, tr)
  | some (t, fulfilled) =>
    if t < timeout then
      if fulfilled then ((t : Int), t, tr)
      else (-1, t, tr)
    else (-1, timeout, tr)

/-- A created rewards notification: its message text and the link stored in
notificationLinks for the click handler. -/
structure RewardNotice where
  message : String
  link : JsValue

/-- showNotification (background.js lines 157-169), reduced to the
observable notification it creates. -/
def showNotification (message : String) (link : JsValue) : RewardNotice :=
  ⟨message, link⟩

/-- checkForRewards (background.js lines 126-151): ensure the base URL, read
the token; with no token skip; otherwise fetch /api/rewards and, when the
response is ok, its body parses, and Object.keys of the payload is nonempty,
create one notification interpolating data.link; otherwise create none.  The
result is the list of created notifications and the event trace. -/
def checkForRewards (oracle : Nat → FetchResult) (baseUrl : JsValue)
    (token : Option String) (rewards : FetchResult) :
    List RewardNotice × List Event :=
  let ensured := ensureBaseUrl oracle baseUrl
  match token with
  | none => ([], ensured.2)
  | some _ =>
    let ev := ensured.2 ++ [Event.fetch (ensured.1.display ++ "/api/rewards")]
    match rewards with
    | FetchResult.netError _ => ([], ev)
    | FetchResult.success r =>
      if r.ok then
        match r.body with
        | none => ([], ev)
        | some data =>
          if data.objectKeys.length > 0 then
            ([showNotification
                ("Earn more rewards points! Visit: " ++ (data.getField "link").display)
                (data.getField "link")], ev)
          else ([], ev)
      else ([], ev)

/-- The heartbeat interval of background.js line 229: 6 hours in ms. -/
def HEARTBEAT_INTERVAL_MS : Nat := 6 * 60 * 60 * 1000

/-- The setInterval handle installed by startHeartbeat: its callback closes
over the token value read once before installation. -/
structure HeartbeatTimer where
  capturedToken : String
  intervalMs : Nat
deriving Repr, DecidableEq

/-- startHeartbeat (background.js lines 196-229): ensure the base URL, read
the token once; with no token, return without installing the interval; with a
token, install the 6-hour interval whose callback captures that token.  The
result is the trace of the call itself and the installed timer, when any. -/
def startHeartbeat (oracle : Nat → FetchResult) (baseUrl : JsValue)
    (token : Option String) : List Event × Option HeartbeatTimer :=
  let ensured := ensureBaseUrl oracle baseUrl
  match token with
  | none => (ensured.2, none)
  | some t => (ensured.2, some ⟨t, HEARTBEAT_INTERVAL_MS⟩)

/-- The Authorization header of the heartbeat sent at the k-th interval tick.
The interval callback never reads storage again, so the header comes from the
captured token alone; the storage contents at tick time are ignored.  With no
installed timer there is no tick and no heartbeat. -/
def heartbeatAuthAt (timer : Option HeartbeatTimer)
    (storageAtTick : Nat → Option String) (k : Nat) : Option String :=
  match timer with
  | none => none
  | some tm => some ("Bearer " ++ tm.capturedToken)

theorem Response_ok_iff (r : Response) : r.ok = true ↔ 200 ≤ r.status ∧ r.status < 300 := by
  simp [Response.ok]

theorem fetchAttempt_eq_ok_iff (oracle : Nat → FetchResult) (i : Nat) (r : Response) :
    fetchAttempt oracle i = Except.ok r ↔
      oracle i = FetchResult.success r ∧ r.ok = true := by
  unfold fetchAttempt
  cases ho : oracle i with
  | success q =>
    show (if q.ok = true then Except.ok q
        else Except.error ("Request failed with status " ++ toString q.status)) =
          Except.ok r ↔ FetchResult.success q = FetchResult.success r ∧ r.ok = true
    by_cases hq : q.ok = true
    · rw [if_pos hq]
      constructor
      · intro h
        cases h
        exact ⟨rfl, hq⟩
      · rintro ⟨h1, h2⟩
        cases h1
        rfl
    · rw [if_neg hq]
      constructor
      · intro h; cases h
      · rintro ⟨h1, h2⟩
        cases h1
        exact absurd h2 hq
  | netError m =>
    constructor
    · intro h; cases h
    · rintro ⟨h1, h2⟩; cases h1

theorem fetchBaseUrl_fst (oracle : Nat → FetchResult) :
    (fetchBaseUrl oracle).1 = fetchBaseUrlValue (fetchWithRetry CONFIG_URL oracle 3 1000).1 :=
  rfl

theorem fetchBaseUrlValue_truthy (res : Except String Response) :
    (fetchBaseUrlValue res).truthy = true := by
  cases res with
  | error e => rfl
  | ok r =>
    simp only [fetchBaseUrlValue]
    cases hb : r.body with
    | none => rfl
    | some data =>
      show (if (data.truthy && (data.getField "baseUrl").truthy) = true
          then data.getField "baseUrl" else JsValue.str FALLBACK_URL).truthy = true
      split
      · rename_i hcond
        simp only [Bool.and_eq_true] at hcond
        exact hcond.2
      · rfl

theorem fetchBaseUrl_truthy (oracle : Nat → FetchResult) :
    (fetchBaseUrl oracle).1.truthy = true := by
  rw [fetchBaseUrl_fst]
  exact fetchBaseUrlValue_truthy _

theorem fetchBaseUrl_fallback_of_error (oracle : Nat → FetchResult) (e : String)
    (h : (fetchWithRetry CONFIG_URL oracle 3 1000).1 = Except.error e) :
    (fetchBaseUrl oracle).1 = JsValue.str FALLBACK_URL := by
  rw [fetchBaseUrl_fst, h]
  rfl

theorem fetchBaseUrlValue_fallback_of_missing (r : Response) (data : JsValue)
    (h2 : r.body = some data) (h3 : (JsValue.getField data "baseUrl").truthy = false) :
    fetchBaseUrlValue (Except.ok r) = JsValue.str FALLBACK_URL := by
  simp only [fetchBaseUrlValue]
  rw [h2]
  show (if (data.truthy && (data.getField "baseUrl").truthy) = true
      then data.getField "baseUrl" else JsValue.str FALLBACK_URL) = JsValue.str FALLBACK_URL
  have hneg : ¬ ((data.truthy && (data.getField "baseUrl").truthy) = true) := by
    simp only [Bool.and_eq_true]
    intro hcond
    rw [h3] at hcond
    exact Bool.false_ne_true hcond.2
  rw [if_neg hneg]

theorem fetchBaseUrl_fallback_of_missing (oracle : Nat → FetchResult) (r : Response)
    (data : JsValue) (h1 : (fetchWithRetry CONFIG_URL oracle 3 1000).1 = Except.ok r)
    (h2 : r.body = some data) (h3 : (JsValue.getField data "baseUrl").truthy = false) :
    (fetchBaseUrl oracle).1 = JsValue.str FALLBACK_URL := by
  rw [fetchBaseUrl_fst, h1]
  exact fetchBaseUrlValue_fallback_of_missing r data h2 h3

theorem fetchBaseUrlValue_cases (res : Except String Response) :
    fetchBaseUrlValue res = JsValue.str FALLBACK_URL ∨
      ∃ r data, res = Except.ok r ∧ r.body = some data ∧
        fetchBaseUrlValue res = JsValue.getField data "baseUrl" := by
  cases res with
  | error e => left; rfl
  | ok r =>
    by_cases hc : ∃ data, r.body = some data ∧
        (data.truthy && (data.getField "baseUrl").truthy) = true
    · rcases hc with ⟨data, hb, hcond⟩
      right
      refine ⟨r, data, rfl, hb, ?_⟩
      simp only [fetchBaseUrlValue]
      rw [hb]
      show (if (data.truthy && (data.getField "baseUrl").truthy) = true
          then data.getField "baseUrl" else JsValue.str FALLBACK_URL) =
        JsValue.getField data "baseUrl"
      rw [if_pos hcond]
    · left
      simp only [fetchBaseUrlValue]
      cases hb : r.body with
      | none => rfl
      | some data =>
        show (if (data.truthy && (data.getField "baseUrl").truthy) = true
            then data.getField "baseUrl" else JsValue.str FALLBACK_URL) =
          JsValue.str FALLBACK_URL
        rw [if_neg]
        intro hcond
        exact hc ⟨data, hb, hcond⟩

theorem fetchBaseUrl_value_cases (oracle : Nat → FetchResult) :
    (fetchBaseUrl oracle).1 = JsValue.str FALLBACK_URL ∨
      ∃ r data, (fetchWithRetry CONFIG_URL oracle 3 1000).1 = Except.ok r ∧
        r.body = some data ∧ (fetchBaseUrl oracle).1 = JsValue.getField data "baseUrl" := by
  rw [fetchBaseUrl_fst]
  exact fetchBaseUrlValue_cases _

theorem ensureBaseUrl_noop (oracle : Nat → FetchResult) (b : JsValue)
    (h : b.truthy = true) : ensureBaseUrl oracle b = (b, []) := by
  unfold ensureBaseUrl
  rw [if_pos h]

theorem ensureBaseUrl_fst_truthy (oracle : Nat → FetchResult) (b : JsValue)
    (h : b.truthy = true) : (ensureBaseUrl oracle b).1.truthy = true := by
  rw [ensureBaseUrl_noop oracle b h]
  exact h

theorem baseUrlRun_truthy (ops : List BaseUrlOp) :
    ∀ b : JsValue, b.truthy = true → (baseUrlRun ops b).truthy = true := by
  induction ops with
  | nil => intro b h; exact h
  | cons op rest ih =>
    intro b h
    cases op with
    | ensure oracle =>
      exact ih _ (ensureBaseUrl_fst_truthy oracle b h)
    | refresh oracle =>
      exact ih _ (fetchBaseUrl_truthy oracle)

/-- Claim C1: every fetchWithRetry call issues at most `retries` underlying
fetch attempts; every wait in its trace is exactly `delay` ms; the trace
consists of fetches separated by single waits with no wait after the final
attempt; and when the call returns a response it is the response of the
first successful attempt, reached right after that attempt. -/
theorem fetchWithRetry_retry_contract (url : String) (oracle : Nat → FetchResult)
    (retries delay : Nat) :
    countFetch (fetchWithRetry url oracle retries delay).2 ≤ retries ∧
    (∃ k, k ≤ retries ∧ (fetchWithRetry url oracle retries delay).2 = retryTrace url delay k) ∧
    (∀ m, Event.wait m ∈ (fetchWithRetry url oracle retries delay).2 → m = delay) ∧
    (∀ r, (fetchWithRetry url oracle retries delay).1 = Except.ok r →
      ∃ k, k < retries ∧ fetchAttempt oracle k = Except.ok r ∧
        (∀ j, j < k → ∃ e, fetchAttempt oracle j = Except.error e) ∧
        (fetchWithRetry url oracle retries delay).2 = retryTrace url delay (k + 1)) := by
  rcases fetchWithRetryGo_spec url oracle retries delay retries 0 (by omega) with
    ⟨r, k, hk0, hk1, hok, hprev, heq⟩ | ⟨hall, heq⟩
  · rw [Nat.sub_zero] at heq
    have heq2 : fetchWithRetry url oracle retries delay =
        (Except.ok r, retryTrace url delay (k + 1)) := heq
    refine ⟨?_, ⟨k + 1, by omega, by rw [heq2]⟩, ?_, ?_⟩
    · rw [heq2]
      simp only []
      rw [countFetch_retryTrace]
      omega
    · intro m hm
      rw [heq2] at hm
      exact wait_mem_retryTrace url delay (k + 1) m hm
    · intro r2 hr2
      rw [heq2] at hr2
      simp only [] at hr2
      cases hr2
      exact ⟨k, hk1, hok, fun j hj => hprev j (Nat.zero_le j) hj, by rw [heq2]⟩
  · have heq2 : fetchWithRetry url oracle retries delay =
        (Except.error "All retry attempts failed", retryTrace url delay retries) := heq
    refine ⟨?_, ⟨retries, le_refl _, by rw [heq2]⟩, ?_, ?_⟩
    · rw [heq2]
      simp only []
      rw [countFetch_retryTrace]
    · intro m hm
      rw [heq2] at hm
      exact wait_mem_retryTrace url delay retries m hm
    · intro r2 hr2
      rw [heq2] at hr2
      cases hr2

theorem fetchWithRetry_retry_contract_witness :
    countFetch (fetchWithRetry "u" (fun _ => FetchResult.netError "e") 3 1000).2 ≤ 3 :=
  (fetchWithRetry_retry_contract "u" (fun _ => FetchResult.netError "e") 3 1000).1

/-- Claim C5: with retries = 3 and all three attempts failing, fetchWithRetry
throws the terminal All retry attempts failed error and issues exactly three
fetch attempts, hence no fourth. -/
theorem fetchWithRetry_exhaustion (url : String) (oracle : Nat → FetchResult)
    (delay : Nat) (h : ∀ j, j < 3 → ∃ e, fetchAttempt oracle j = Except.error e) :
    (fetchWithRetry url oracle 3 delay).1 = Except.error "All retry attempts failed" ∧
    countFetch (fetchWithRetry url oracle 3 delay).2 = 3 := by
  rcases fetchWithRetryGo_spec url oracle 3 delay 3 0 (by omega) with
    ⟨r, k, hk0, hk1, hok, hprev, heq⟩ | ⟨hall, heq⟩
  · rcases h k hk1 with ⟨e, he⟩
    rw [hok] at he
    cases he
  · have heq2 : fetchWithRetry url oracle 3 delay =
        (Except.error "All retry attempts failed", retryTrace url delay 3) := heq
    constructor
    · rw [heq2]
    · rw [heq2]
      simp only []
      rw [countFetch_retryTrace]

theorem fetchWithRetry_exhaustion_witness :
    (fetchWithRetry "u" (fun _ => FetchResult.netError "boom") 3 1000).1 =
      Except.error "All retry attempts failed" ∧
    countFetch (fetchWithRetry "u" (fun _ => FetchResult.netError "boom") 3 1000).2 = 3 :=
  fetchWithRetry_exhaustion "u" (fun _ => FetchResult.netError "boom") 1000
    (fun _ _ => ⟨"boom", rfl⟩)

/-- Claim C3 counterexample: a response with the 3xx status 301 is not
accepted as success.  With every attempt answered by status 301, the loop
treats each attempt as failed (throwing Request failed with status 301),
retries, and exhausts all three attempts instead of returning the response. -/
theorem fetchAttempt_3xx_rejected :
    fetchAttempt (fun _ => FetchResult.success ⟨301, some JsValue.null⟩) 0 =
      Except.error "Request failed with status 301" ∧
    (fetchWithRetry "u" (fun _ => FetchResult.success ⟨301, some JsValue.null⟩) 3 1000).1 =
      Except.error "All retry attempts failed" ∧
    countFetch
      (fetchWithRetry "u" (fun _ => FetchResult.success ⟨301, some JsValue.null⟩) 3 1000).2 = 3 :=
  ⟨rfl, rfl, rfl⟩

/-- Claim C3 (amended): an attempt counts as failed exactly when a network
error occurs or the response status is outside 200-299, the range on which
response.ok is true; consequently a response with a 3xx status is treated as
a failure and retried, not returned. -/
theorem fetchAttempt_failure_criterion (oracle : Nat → FetchResult) (i : Nat) :
    ((∃ r, fetchAttempt oracle i = Except.ok r) ↔
      (∃ r, oracle i = FetchResult.success r ∧ 200 ≤ r.status ∧ r.status < 300)) ∧
    (∀ r, fetchAttempt oracle i = Except.ok r →
      oracle i = FetchResult.success r ∧ 200 ≤ r.status ∧ r.status < 300) := by
  constructor
  · constructor
    · rintro ⟨r, hr⟩
      rcases (fetchAttempt_eq_ok_iff oracle i r).mp hr with ⟨h1, h2⟩
      rcases (Response_ok_iff r).mp h2 with ⟨h3, h4⟩
      exact ⟨r, h1, h3, h4⟩
    · rintro ⟨r, h1, h3, h4⟩
      exact ⟨r, (fetchAttempt_eq_ok_iff oracle i r).mpr ⟨h1, (Response_ok_iff r).mpr ⟨h3, h4⟩⟩⟩
  · intro r hr
    rcases (fetchAttempt_eq_ok_iff oracle i r).mp hr with ⟨h1, h2⟩
    rcases (Response_ok_iff r).mp h2 with ⟨h3, h4⟩
    exact ⟨h1, h3, h4⟩

theorem fetchAttempt_failure_criterion_witness :
    (fun _ => FetchResult.success ⟨204, some JsValue.null⟩) 0 =
      FetchResult.success ⟨204, some JsValue.null⟩ ∧
    200 ≤ (204 : Nat) ∧ (204 : Nat) < 300 :=
  (fetchAttempt_failure_criterion (fun _ => FetchResult.success ⟨204, some JsValue.null⟩) 0).2
    ⟨204, some JsValue.null⟩ rfl

/-- Claim C2 counterexample: the utils.js resolver, on a successful response
whose payload is the empty object (baseUrl missing), returns the undefined
value of data.baseUrl rather than the fixed fallback string. -/
theorem utilsFetchBaseUrl_missing_field :
    (utilsFetchBaseUrl (FetchResult.success ⟨200, some (JsValue.obj [])⟩)).1 =
      JsValue.undefined ∧
    (utilsFetchBaseUrl (FetchResult.success ⟨200, some (JsValue.obj [])⟩)).1 ≠
      JsValue.str FALLBACK_URL :=
  ⟨rfl, fun h => nomatch h⟩

/-- Claim C2 (amended): the background.js resolver returns the fixed fallback
string on any retry failure and on any successful payload without a truthy
baseUrl field, and its result is always truthy, never empty or undefined; the
utils.js resolver returns the fallback on network failure and on a non-ok
status, but passes the undefined field value through when a successful
payload lacks baseUrl. -/
theorem fetchBaseUrl_fallback_contract (oracle : Nat → FetchResult) :
    (fetchBaseUrl oracle).1.truthy = true ∧
    (∀ e, (fetchWithRetry CONFIG_URL oracle 3 1000).1 = Except.error e →
      (fetchBaseUrl oracle).1 = JsValue.str FALLBACK_URL) ∧
    (∀ r data, (fetchWithRetry CONFIG_URL oracle 3 1000).1 = Except.ok r →
      r.body = some data → (JsValue.getField data "baseUrl").truthy = false →
      (fetchBaseUrl oracle).1 = JsValue.str FALLBACK_URL) ∧
    (∀ m, (utilsFetchBaseUrl (FetchResult.netError m)).1 = JsValue.str FALLBACK_URL) ∧
    (∀ r, r.ok = false → (utilsFetchBaseUrl (FetchResult.success r)).1 =
      JsValue.str FALLBACK_URL) := by
  refine ⟨fetchBaseUrl_truthy oracle, ?_, ?_, ?_, ?_⟩
  · intro e h
    exact fetchBaseUrl_fallback_of_error oracle e h
  · intro r data h1 h2 h3
    exact fetchBaseUrl_fallback_of_missing oracle r data h1 h2 h3
  · intro m
    rfl
  · intro r h
    show utilsFetchBaseUrlValue (FetchResult.success r) = JsValue.str FALLBACK_URL
    simp only [utilsFetchBaseUrlValue]
    rw [h]
    rfl

theorem fetchBaseUrl_fallback_contract_witness :
    (fetchBaseUrl (fun _ => FetchResult.netError "x")).1 = JsValue.str FALLBACK_URL :=
  (fetchBaseUrl_fallback_contract (fun _ => FetchResult.netError "x")).2.1
    "All retry attempts failed" rfl

/-- Claim C4 counterexample: with the base URL still unresolved and no stored
token, startHeartbeat performs three network calls (the fetches of the
base-URL resolution triggered by ensureBaseUrl) before skipping, where the
claim requires zero. -/
theorem startHeartbeat_no_token_fetches :
    countFetch (startHeartbeat (fun _ => FetchResult.netError "down") JsValue.null none).1 = 3 :=
  rfl

/-- Claim C4 (amended): with no stored token, reportTestResult performs zero
network calls and returns silently; startHeartbeat installs no timer and
sends no heartbeat, but first runs ensureBaseUrl, so it performs exactly the
network calls of base-URL resolution, which are zero whenever the base URL is
already resolved. -/
theorem reportAndHeartbeat_skip_contract (oracle : Nat → FetchResult) (b : JsValue) :
    (∀ node latency, reportTestResult b none node latency = ([], none)) ∧
    (startHeartbeat oracle b none).2 = none ∧
    (startHeartbeat oracle b none).1 = (ensureBaseUrl oracle b).2 ∧
    (b.truthy = true → (startHeartbeat oracle b none).1 = []) := by
  refine ⟨fun node latency => rfl, rfl, rfl, ?_⟩
  intro h
  show (ensureBaseUrl oracle b).2 = []
  rw [ensureBaseUrl_noop oracle b h]

theorem reportAndHeartbeat_skip_contract_witness :
    (startHeartbeat (fun _ => FetchResult.netError "down") (JsValue.str "https://x") none).1 = [] :=
  (reportAndHeartbeat_skip_contract (fun _ => FetchResult.netError "down")
    (JsValue.str "https://x")).2.2.2 rfl

/-- Claim C6: after the first completed resolution the cached base URL is
truthy (never unset), holds either the fixed fallback or the
backend-provided baseUrl field, stays truthy under any further sequence of
ensure and refresh operations, and every ensureBaseUrl call in a resolved
state is a no-op producing no events. -/
theorem baseUrl_resolved_invariant (oracle0 : Nat → FetchResult) (ops : List BaseUrlOp) :
    (fetchBaseUrl oracle0).1.truthy = true ∧
    (baseUrlRun ops (fetchBaseUrl oracle0).1).truthy = true ∧
    ((fetchBaseUrl oracle0).1 = JsValue.str FALLBACK_URL ∨
      ∃ r data, (fetchWithRetry CONFIG_URL oracle0 3 1000).1 = Except.ok r ∧
        r.body = some data ∧ (fetchBaseUrl oracle0).1 = JsValue.getField data "baseUrl") ∧
    (∀ oracle b, JsValue.truthy b = true → ensureBaseUrl oracle b = (b, [])) :=
  ⟨fetchBaseUrl_truthy oracle0,
   baseUrlRun_truthy ops _ (fetchBaseUrl_truthy oracle0),
   fetchBaseUrl_value_cases oracle0,
   fun oracle b h => ensureBaseUrl_noop oracle b h⟩

theorem baseUrl_resolved_invariant_witness :
    ensureBaseUrl (fun _ => FetchResult.netError "x") (JsValue.str "https://api.pipecdn.app") =
      (JsValue.str "https://api.pipecdn.app", []) :=
  (baseUrl_resolved_invariant (fun _ => FetchResult.netError "x") []).2.2.2
    (fun _ => FetchResult.netError "x") (JsValue.str "https://api.pipecdn.app") rfl

/-- Claim C7: a single-node latency test makes exactly one probe attempt;
when the probe never settles it returns -1 exactly 5000 ms after the start,
and when the probe fulfills before the timeout it returns the elapsed
milliseconds at that moment. -/
theorem testNodeLatency_contract (node : Node) (probe : Option (Nat × Bool)) :
    (testNodeLatency node probe).2.2 = [Event.fetch ("http://" ++ node.ip)] ∧
    (probe = none → (testNodeLatency node probe).1 = -1 ∧
      (testNodeLatency node probe).2.1 = 5000) ∧
    (∀ t, probe = some (t, true) → t < 5000 →
      (testNodeLatency node probe).1 = (t : Int) ∧
      (testNodeLatency node probe).2.1 = t) := by
  rcases probe with _ | ⟨t, fulfilled⟩
  · exact ⟨rfl, fun _ => ⟨rfl, rfl⟩, fun t h => by cases h⟩
  · refine ⟨?_, ?_, ?_⟩
    · simp only [testNodeLatency]
      split
      · split <;> rfl
      · rfl
    · intro h; cases h
    · intro t2 h hlt
      have ht : t = t2 ∧ fulfilled = true := by
        rcases h with ⟨⟩
        exact ⟨rfl, rfl⟩
      rcases ht with ⟨ht1, ht2⟩
      subst ht1
      subst ht2
      constructor <;> simp [testNodeLatency, hlt]

theorem testNodeLatency_contract_witness :
    (testNodeLatency ⟨"n1", "10.0.0.1"⟩ none).1 = -1 ∧
    (testNodeLatency ⟨"n1", "10.0.0.1"⟩ none).2.1 = 5000 :=
  (testNodeLatency_contract ⟨"n1", "10.0.0.1"⟩ none).2.1 rfl

/-- Claim C8: a rewards check with a token and a successful ok response
creates no notification when the payload is the empty object, and creates
exactly one notification referencing the link value when the payload has a
link field pointing at https-colon-slash-slash-y. -/
theorem checkForRewards_notice_contract (oracle : Nat → FetchResult) (b : JsValue)
    (tok : String) :
    (checkForRewards oracle b (some tok)
        (FetchResult.success ⟨200, some (JsValue.obj [])⟩)).1 = [] ∧
    (checkForRewards oracle b (some tok)
        (FetchResult.success ⟨200, some (JsValue.obj [("link", JsValue.str "https://y")])⟩)).1 =
      [showNotification "Earn more rewards points! Visit: https://y"
        (JsValue.str "https://y")] ∧
    (checkForRewards oracle b (some tok)
        (FetchResult.success ⟨200,
          some (JsValue.obj [("link", JsValue.str "https://y")])⟩)).1.length = 1 :=
  ⟨rfl, rfl, rfl⟩

/-- Claim C9: the reported status is the string online exactly when the
measured latency is strictly positive; in particular a probe that fulfills
with 0 ms elapsed is reported offline. -/
theorem reportStatus_online_iff_positive (node : Node) (latency : Int) :
    ((testReportBody node latency).status = "online" ↔ latency > 0) ∧
    (testReportBody node ((testNodeLatency node (some (0, true))).1)).status = "offline" := by
  constructor
  · show (if latency > 0 then "online" else "offline") = "online" ↔ latency > 0
    split
    · rename_i h
      exact iff_of_true rfl h
    · rename_i h
      exact iff_of_false (by decide) h
  · rfl

/-- Claim C10: startHeartbeat reads the stored token once before installing
the 6-hour interval; with no token the interval is never installed and no
heartbeat is ever sent, and with a token every tick sends the captured value,
so the Authorization header is independent of the storage contents at tick
time. -/
theorem startHeartbeat_token_capture (oracle : Nat → FetchResult) (b : JsValue) :
    ((startHeartbeat oracle b none).2 = none ∧
      ∀ s k, heartbeatAuthAt (startHeartbeat oracle b none).2 s k = none) ∧
    (∀ t tm, (startHeartbeat oracle b (some t)).2 = some tm →
      tm.capturedToken = t ∧ tm.intervalMs = 21600000 ∧
      ∀ s1 s2 k, heartbeatAuthAt (some tm) s1 k = some ("Bearer " ++ t) ∧
        heartbeatAuthAt (some tm) s1 k = heartbeatAuthAt (some tm) s2 k) := by
  constructor
  · exact ⟨rfl, fun s k => rfl⟩
  · intro t tm htm
    have hval : (startHeartbeat oracle b (some t)).2 =
        some (HeartbeatTimer.mk t HEARTBEAT_INTERVAL_MS) := rfl
    rw [hval] at htm
    have htm2 : HeartbeatTimer.mk t HEARTBEAT_INTERVAL_MS = tm := by
      cases htm
      rfl
    subst htm2
    exact ⟨rfl, rfl, fun s1 s2 k => ⟨rfl, rfl⟩⟩

theorem startHeartbeat_token_capture_witness :
    (HeartbeatTimer.mk "tok" HEARTBEAT_INTERVAL_MS).capturedToken = "tok" ∧
    (HeartbeatTimer.mk "tok" HEARTBEAT_INTERVAL_MS).intervalMs = 21600000 :=
  ⟨((startHeartbeat_token_capture (fun _ => FetchResult.netError "x") JsValue.null).2
      "tok" (HeartbeatTimer.mk "tok" HEARTBEAT_INTERVAL_MS) rfl).1,
   ((startHeartbeat_token_capture (fun _ => FetchResult.netError "x") JsValue.null).2
      "tok" (HeartbeatTimer.mk "tok" HEARTBEAT_INTERVAL_MS) rfl).2.1⟩

end PipeNetwork
